import Mathlib

/-!
Verification of `enable_keepalive` from `src/KeepAlive/keepalive.c`
(spec name: `configureKeepalive`).

The C function makes four `setsockopt` calls in a fixed order against a
socket handle, returning the C int `0` as soon as one of them returns `-1`
and the C int `1` when all four calls return a value other than `-1`:

  int enable_keepalive(int sock, int enable_keepalive, int time,
                       int interval, int maxpkt)
    check(setsockopt(sock, SOL_SOCKET,  SO_KEEPALIVE,  &enable_keepalive, ...) != -1);
    check(setsockopt(sock, IPPROTO_TCP, TCP_KEEPIDLE,  &time,     ...) != -1);
    check(setsockopt(sock, IPPROTO_TCP, TCP_KEEPINTVL, &interval, ...) != -1);
    check(setsockopt(sock, IPPROTO_TCP, TCP_KEEPCNT,   &maxpkt,   ...) != -1);
    return 1;
  where  #define check(expr) if (!(expr)) \x7b return 0; \x7d

The operating system is not part of the repository; it is modelled as an
oracle (`OsModel`): a function that, given a `setsockopt` request and the
kernel-side option state of the socket, yields the call's return value and
the resulting kernel state.  The embedding `enable_keepalive` threads the
kernel state through the four calls exactly as the C code does, and in
addition records the trace of the `setsockopt` requests actually issued
together with their return values, so that "no further settings were
attempted" becomes a provable statement about the trace.
-/

namespace KeepAlive

/-- Linux value of `SOL_SOCKET` (from `<sys/socket.h>`). -/
def SOL_SOCKET : Int := 1

/-- Linux value of `SO_KEEPALIVE`. -/
def SO_KEEPALIVE : Int := 9

/-- Linux value of `IPPROTO_TCP` (from `<netinet/in.h>`). -/
def IPPROTO_TCP : Int := 6

/-- Linux value of `TCP_KEEPIDLE` (from `<netinet/tcp.h>`). -/
def TCP_KEEPIDLE : Int := 4

/-- Linux value of `TCP_KEEPINTVL`. -/
def TCP_KEEPINTVL : Int := 5

/-- Linux value of `TCP_KEEPCNT`. -/
def TCP_KEEPCNT : Int := 6

/-- One `setsockopt(sock, level, optname, &value, sizeof(int))` request.
The option value is a single C `int`, passed by address in the C code;
here it is carried directly. -/
structure SockOptCall where
  sock : Int
  level : Int
  optname : Int
  value : Int
deriving DecidableEq, Repr

/-- Kernel-side keepalive configuration of the socket the handle refers to:
the four option values this component can touch. -/
structure KernelState where
  keepaliveEnabled : Int
  keepIdle : Int
  keepIntvl : Int
  keepCnt : Int
deriving DecidableEq, Repr

/-- Linux default keepalive state of a fresh TCP socket
(keepalive off, 7200 s idle, 75 s interval, 9 probes). -/
def initState : KernelState := ⟨0, 7200, 75, 9⟩

/-- Effect of a successful `setsockopt` on the kernel state: the named
option is overwritten with the requested value; a request naming none of
the four keepalive options leaves this state untouched. -/
def applyOpt (s : KernelState) (c : SockOptCall) : KernelState :=
  if c.level = SOL_SOCKET ∧ c.optname = SO_KEEPALIVE then
    { s with keepaliveEnabled := c.value }
  else if c.level = IPPROTO_TCP ∧ c.optname = TCP_KEEPIDLE then
    { s with keepIdle := c.value }
  else if c.level = IPPROTO_TCP ∧ c.optname = TCP_KEEPINTVL then
    { s with keepIntvl := c.value }
  else if c.level = IPPROTO_TCP ∧ c.optname = TCP_KEEPCNT then
    { s with keepCnt := c.value }
  else s

/-- Model of the operating system's `setsockopt`: from a request and the
current kernel state, the call's return value (`-1` on failure) and the
kernel state afterwards. -/
def OsModel : Type := SockOptCall → KernelState → Int × KernelState

/-- Conforming operating system: a failing call (return `-1`) leaves the
kernel state unchanged, a succeeding call stores exactly the requested
value. -/
def Conforming (os : OsModel) : Prop :=
  ∀ c s, ((os c s).1 = -1 → (os c s).2 = s) ∧
    ((os c s).1 ≠ -1 → (os c s).2 = applyOpt s c)

/-- First `setsockopt` request of the C code: toggle `SO_KEEPALIVE`. -/
def call1 (sock v : Int) : SockOptCall := ⟨sock, SOL_SOCKET, SO_KEEPALIVE, v⟩

/-- Second request: `TCP_KEEPIDLE` (idle time before the first probe). -/
def call2 (sock v : Int) : SockOptCall := ⟨sock, IPPROTO_TCP, TCP_KEEPIDLE, v⟩

/-- Third request: `TCP_KEEPINTVL` (interval between probes). -/
def call3 (sock v : Int) : SockOptCall := ⟨sock, IPPROTO_TCP, TCP_KEEPINTVL, v⟩

/-- Fourth request: `TCP_KEEPCNT` (maximum unacknowledged probes). -/
def call4 (sock v : Int) : SockOptCall := ⟨sock, IPPROTO_TCP, TCP_KEEPCNT, v⟩

/-- Outcome of one invocation of `enable_keepalive`: the C return value
(`0` or `1`), the kernel state when the function returns, and the trace of
`setsockopt` requests actually issued, each with its return value. -/
structure ExecResult where
  ret : Int
  state : KernelState
  calls : List (SockOptCall × Int)
deriving DecidableEq, Repr

/-- Return value and state of the first `setsockopt` call. -/
def res1 (os : OsModel) (s0 : KernelState) (sock e : Int) : Int × KernelState :=
  os (call1 sock e) s0

/-- Return value and state of the second call, issued on the state left by
the first. -/
def res2 (os : OsModel) (s0 : KernelState) (sock e t : Int) : Int × KernelState :=
  os (call2 sock t) (res1 os s0 sock e).2

/-- Return value and state of the third call. -/
def res3 (os : OsModel) (s0 : KernelState) (sock e t i : Int) : Int × KernelState :=
  os (call3 sock i) (res2 os s0 sock e t).2

/-- Return value and state of the fourth call. -/
def res4 (os : OsModel) (s0 : KernelState) (sock e t i m : Int) : Int × KernelState :=
  os (call4 sock m) (res3 os s0 sock e t i).2

/-- Shallow embedding of `enable_keepalive` from `src/KeepAlive/keepalive.c`.
Parameters mirror the C parameters `(sock, enable_keepalive, time,
interval, maxpkt)`; the second C parameter is renamed `enableKA` because it
shadows the function name.  Each `check(setsockopt(...) != -1)` becomes: issue
the request through the oracle, and if the return value is `-1`, stop with
C return value `0`; after all four checks the C code returns `1`. -/
def enable_keepalive (os : OsModel) (s0 : KernelState)
    (sock enableKA time interval maxpkt : Int) : ExecResult :=
  let p1 := os (call1 sock enableKA) s0
  if p1.1 = -1 then ⟨0, p1.2, [(call1 sock enableKA, p1.1)]⟩ else
  let p2 := os (call2 sock time) p1.2
  if p2.1 = -1 then
    ⟨0, p2.2, [(call1 sock enableKA, p1.1), (call2 sock time, p2.1)]⟩ else
  let p3 := os (call3 sock interval) p2.2
  if p3.1 = -1 then
    ⟨0, p3.2, [(call1 sock enableKA, p1.1), (call2 sock time, p2.1),
      (call3 sock interval, p3.1)]⟩ else
  let p4 := os (call4 sock maxpkt) p3.2
  if p4.1 = -1 then
    ⟨0, p4.2, [(call1 sock enableKA, p1.1), (call2 sock time, p2.1),
      (call3 sock interval, p3.1), (call4 sock maxpkt, p4.1)]⟩ else
  ⟨1, p4.2, [(call1 sock enableKA, p1.1), (call2 sock time, p2.1),
    (call3 sock interval, p3.1), (call4 sock maxpkt, p4.1)]⟩

/-- Operating system that accepts every request (returning `0`) and stores
the value. -/
def goodOS : OsModel := fun c s => (0, applyOpt s c)

/-- Operating system that rejects exactly the `TCP_KEEPIDLE` request and
accepts everything else. -/
def failIdleOS : OsModel := fun c s =>
  if c.level = IPPROTO_TCP ∧ c.optname = TCP_KEEPIDLE then (-1, s)
  else (0, applyOpt s c)

/-- Operating system on which one handle `bad` is invalid: every request on
it fails, requests on other handles succeed. -/
def badSockOS (bad : Int) : OsModel := fun c s =>
  if c.sock = bad then (-1, s) else (0, applyOpt s c)

/-- Operating system whose successful calls return `7` rather than `0`,
exercising that the C code tests only for `-1`. -/
def weirdOS : OsModel := fun c s => (7, applyOpt s c)

theorem goodOS_conforming : Conforming goodOS := by
  intro c s
  constructor
  · intro h; simp [goodOS] at h
  · intro _; rfl

theorem failIdleOS_conforming : Conforming failIdleOS := by
  intro c s
  by_cases h : c.level = IPPROTO_TCP ∧ c.optname = TCP_KEEPIDLE
  · constructor
    · intro _; simp [failIdleOS, h]
    · intro hne; exact absurd (by simp [failIdleOS, h]) hne
  · constructor
    · intro hfail; simp [failIdleOS, h] at hfail
    · intro _; simp [failIdleOS, h]

theorem badSockOS_conforming (bad : Int) : Conforming (badSockOS bad) := by
  intro c s
  by_cases h : c.sock = bad
  · constructor
    · intro _; simp [badSockOS, h]
    · intro hne; exact absurd (by simp [badSockOS, h]) hne
  · constructor
    · intro hfail; simp [badSockOS, h] at hfail
    · intro _; simp [badSockOS, h]

theorem weirdOS_conforming : Conforming weirdOS := by
  intro c s
  constructor
  · intro h; simp [weirdOS] at h
  · intro _; rfl

/-- C1: the function returns `1` (true) exactly when all four `setsockopt`
calls succeed; when step k is the first to return `-1`, the trace contains
precisely the first k requests (so steps k+1..4 are never issued) and the
return value is `0` (false). -/
theorem enable_keepalive_shortCircuit (os : OsModel) (s0 : KernelState)
    (sock e t i m : Int) :
    ((enable_keepalive os s0 sock e t i m).ret = 1 ↔
      (res1 os s0 sock e).1 ≠ -1 ∧ (res2 os s0 sock e t).1 ≠ -1 ∧
      (res3 os s0 sock e t i).1 ≠ -1 ∧ (res4 os s0 sock e t i m).1 ≠ -1) ∧
    ((res1 os s0 sock e).1 = -1 →
      (enable_keepalive os s0 sock e t i m).ret = 0 ∧
      (enable_keepalive os s0 sock e t i m).calls =
        [(call1 sock e, (res1 os s0 sock e).1)]) ∧
    ((res1 os s0 sock e).1 ≠ -1 → (res2 os s0 sock e t).1 = -1 →
      (enable_keepalive os s0 sock e t i m).ret = 0 ∧
      (enable_keepalive os s0 sock e t i m).calls =
        [(call1 sock e, (res1 os s0 sock e).1),
         (call2 sock t, (res2 os s0 sock e t).1)]) ∧
    ((res1 os s0 sock e).1 ≠ -1 → (res2 os s0 sock e t).1 ≠ -1 →
      (res3 os s0 sock e t i).1 = -1 →
      (enable_keepalive os s0 sock e t i m).ret = 0 ∧
      (enable_keepalive os s0 sock e t i m).calls =
        [(call1 sock e, (res1 os s0 sock e).1),
         (call2 sock t, (res2 os s0 sock e t).1),
         (call3 sock i, (res3 os s0 sock e t i).1)]) ∧
    ((res1 os s0 sock e).1 ≠ -1 → (res2 os s0 sock e t).1 ≠ -1 →
      (res3 os s0 sock e t i).1 ≠ -1 → (res4 os s0 sock e t i m).1 = -1 →
      (enable_keepalive os s0 sock e t i m).ret = 0 ∧
      (enable_keepalive os s0 sock e t i m).calls =
        [(call1 sock e, (res1 os s0 sock e).1),
         (call2 sock t, (res2 os s0 sock e t).1),
         (call3 sock i, (res3 os s0 sock e t i).1),
         (call4 sock m, (res4 os s0 sock e t i m).1)]) := by
  by_cases h1 : (res1 os s0 sock e).1 = -1
  · simp [enable_keepalive, res1, res2, res3, res4] at h1 ⊢
    simp [h1]
  · by_cases h2 : (res2 os s0 sock e t).1 = -1
    · simp [enable_keepalive, res1, res2, res3, res4] at h1 h2 ⊢
      simp [h1, h2]
    · by_cases h3 : (res3 os s0 sock e t i).1 = -1
      · simp [enable_keepalive, res1, res2, res3, res4] at h1 h2 h3 ⊢
        simp [h1, h2, h3]
      · by_cases h4 : (res4 os s0 sock e t i m).1 = -1
        · simp [enable_keepalive, res1, res2, res3, res4] at h1 h2 h3 h4 ⊢
          simp [h1, h2, h3, h4]
        · simp [enable_keepalive, res1, res2, res3, res4] at h1 h2 h3 h4 ⊢
          simp [h1, h2, h3, h4]

/-- Witness for C1: on an operating system that rejects exactly the
`TCP_KEEPIDLE` request, step 2 is the first to fail, the return value is
`0` and only the first two requests are issued. -/
theorem enable_keepalive_shortCircuit_witness :
    (enable_keepalive failIdleOS initState 3 1 60 10 5).ret = 0 ∧
    (enable_keepalive failIdleOS initState 3 1 60 10 5).calls =
      [(call1 3 1, (res1 failIdleOS initState 3 1).1),
       (call2 3 60, (res2 failIdleOS initState 3 1 60).1)] :=
  (enable_keepalive_shortCircuit failIdleOS initState 3 1 60 10 5).2.2.1
    (by decide) (by decide)

theorem applyOpt_call1 (s : KernelState) (sock v : Int) :
    applyOpt s (call1 sock v) = { s with keepaliveEnabled := v } := by
  simp [applyOpt, call1, SOL_SOCKET, SO_KEEPALIVE, IPPROTO_TCP, TCP_KEEPIDLE,
    TCP_KEEPINTVL, TCP_KEEPCNT]

theorem applyOpt_call2 (s : KernelState) (sock v : Int) :
    applyOpt s (call2 sock v) = { s with keepIdle := v } := by
  simp [applyOpt, call2, SOL_SOCKET, SO_KEEPALIVE, IPPROTO_TCP, TCP_KEEPIDLE,
    TCP_KEEPINTVL, TCP_KEEPCNT]

theorem applyOpt_call3 (s : KernelState) (sock v : Int) :
    applyOpt s (call3 sock v) = { s with keepIntvl := v } := by
  simp [applyOpt, call3, SOL_SOCKET, SO_KEEPALIVE, IPPROTO_TCP, TCP_KEEPIDLE,
    TCP_KEEPINTVL, TCP_KEEPCNT]

theorem applyOpt_call4 (s : KernelState) (sock v : Int) :
    applyOpt s (call4 sock v) = { s with keepCnt := v } := by
  simp [applyOpt, call4, SOL_SOCKET, SO_KEEPALIVE, IPPROTO_TCP, TCP_KEEPIDLE,
    TCP_KEEPINTVL, TCP_KEEPCNT]

/-- Helper: the C return value is `1` exactly when all four calls return a
value other than `-1`. -/
theorem run_ret_iff (os : OsModel) (s0 : KernelState) (sock e t i m : Int) :
    (enable_keepalive os s0 sock e t i m).ret = 1 ↔
      ((res1 os s0 sock e).1 ≠ -1 ∧ (res2 os s0 sock e t).1 ≠ -1 ∧
       (res3 os s0 sock e t i).1 ≠ -1 ∧ (res4 os s0 sock e t i m).1 ≠ -1) := by
  by_cases h1 : (res1 os s0 sock e).1 = -1
  · simp [enable_keepalive, res1, res2, res3, res4] at h1 ⊢
    simp [h1]
  · by_cases h2 : (res2 os s0 sock e t).1 = -1
    · simp [enable_keepalive, res1, res2, res3, res4] at h1 h2 ⊢
      simp [h1, h2]
    · by_cases h3 : (res3 os s0 sock e t i).1 = -1
      · simp [enable_keepalive, res1, res2, res3, res4] at h1 h2 h3 ⊢
        simp [h1, h2, h3]
      · by_cases h4 : (res4 os s0 sock e t i m).1 = -1
        · simp [enable_keepalive, res1, res2, res3, res4] at h1 h2 h3 h4 ⊢
          simp [h1, h2, h3, h4]
        · simp [enable_keepalive, res1, res2, res3, res4] at h1 h2 h3 h4 ⊢
          simp [h1, h2, h3, h4]

/-- Helper: on a conforming operating system, the kernel state on return is
the initial state transformed by exactly the successful calls, in order. -/
theorem run_state_eq (os : OsModel) (s0 : KernelState) (sock e t i m : Int)
    (hos : Conforming os) :
    ((res1 os s0 sock e).1 = -1 →
      (enable_keepalive os s0 sock e t i m).state = s0) ∧
    ((res1 os s0 sock e).1 ≠ -1 → (res2 os s0 sock e t).1 = -1 →
      (enable_keepalive os s0 sock e t i m).state =
        applyOpt s0 (call1 sock e)) ∧
    ((res1 os s0 sock e).1 ≠ -1 → (res2 os s0 sock e t).1 ≠ -1 →
      (res3 os s0 sock e t i).1 = -1 →
      (enable_keepalive os s0 sock e t i m).state =
        applyOpt (applyOpt s0 (call1 sock e)) (call2 sock t)) ∧
    ((res1 os s0 sock e).1 ≠ -1 → (res2 os s0 sock e t).1 ≠ -1 →
      (res3 os s0 sock e t i).1 ≠ -1 → (res4 os s0 sock e t i m).1 = -1 →
      (enable_keepalive os s0 sock e t i m).state =
        applyOpt (applyOpt (applyOpt s0 (call1 sock e)) (call2 sock t))
          (call3 sock i)) ∧
    ((res1 os s0 sock e).1 ≠ -1 → (res2 os s0 sock e t).1 ≠ -1 →
      (res3 os s0 sock e t i).1 ≠ -1 → (res4 os s0 sock e t i m).1 ≠ -1 →
      (enable_keepalive os s0 sock e t i m).state =
        applyOpt (applyOpt (applyOpt (applyOpt s0 (call1 sock e))
          (call2 sock t)) (call3 sock i)) (call4 sock m)) := by
  refine ⟨?_, ?_, ?_, ?_, ?_⟩
  · intro h1
    simp only [res1] at h1
    have final : (enable_keepalive os s0 sock e t i m).state =
        (os (call1 sock e) s0).2 := by
      simp [enable_keepalive, h1]
    rw [final, (hos _ _).1 h1]
  · intro h1 h2
    simp only [res1, res2] at h1 h2
    have final : (enable_keepalive os s0 sock e t i m).state =
        (os (call2 sock t) (os (call1 sock e) s0).2).2 := by
      simp [enable_keepalive, h1, h2]
    rw [final, (hos _ _).1 h2, (hos _ _).2 h1]
  · intro h1 h2 h3
    simp only [res1, res2, res3] at h1 h2 h3
    have final : (enable_keepalive os s0 sock e t i m).state =
        (os (call3 sock i)
          (os (call2 sock t) (os (call1 sock e) s0).2).2).2 := by
      simp [enable_keepalive, h1, h2, h3]
    rw [final, (hos _ _).1 h3, (hos _ _).2 h2, (hos _ _).2 h1]
  · intro h1 h2 h3 h4
    simp only [res1, res2, res3, res4] at h1 h2 h3 h4
    have final : (enable_keepalive os s0 sock e t i m).state =
        (os (call4 sock m) (os (call3 sock i)
          (os (call2 sock t) (os (call1 sock e) s0).2).2).2).2 := by
      simp [enable_keepalive, h1, h2, h3, h4]
    rw [final, (hos _ _).1 h4, (hos _ _).2 h3, (hos _ _).2 h2, (hos _ _).2 h1]
  · intro h1 h2 h3 h4
    simp only [res1, res2, res3, res4] at h1 h2 h3 h4
    have final : (enable_keepalive os s0 sock e t i m).state =
        (os (call4 sock m) (os (call3 sock i)
          (os (call2 sock t) (os (call1 sock e) s0).2).2).2).2 := by
      simp [enable_keepalive, h1, h2, h3, h4]
    rw [final, (hos _ _).2 h4, (hos _ _).2 h3, (hos _ _).2 h2, (hos _ _).2 h1]

/-- C2: the requests issued are always an initial segment of the fixed
sequence `SO_KEEPALIVE`, `TCP_KEEPIDLE`, `TCP_KEEPINTVL`, `TCP_KEEPCNT`
with the given parameter values: the four settings are applied in that
order and no other request is interspersed. -/
theorem enable_keepalive_fixedOrder (os : OsModel) (s0 : KernelState)
    (sock e t i m : Int) :
    ∃ n, n ≤ 4 ∧
      (enable_keepalive os s0 sock e t i m).calls.map Prod.fst =
        List.take n [call1 sock e, call2 sock t, call3 sock i, call4 sock m] := by
  by_cases h1 : (res1 os s0 sock e).1 = -1
  · simp only [res1] at h1
    exact ⟨1, by norm_num, by simp [enable_keepalive, h1]⟩
  · simp only [res1] at h1
    by_cases h2 : (res2 os s0 sock e t).1 = -1
    · simp only [res2, res1] at h2
      exact ⟨2, by norm_num, by simp [enable_keepalive, h1, h2]⟩
    · simp only [res2, res1] at h2
      by_cases h3 : (res3 os s0 sock e t i).1 = -1
      · simp only [res3, res2, res1] at h3
        exact ⟨3, by norm_num, by simp [enable_keepalive, h1, h2, h3]⟩
      · simp only [res3, res2, res1] at h3
        by_cases h4 : (res4 os s0 sock e t i m).1 = -1
        · simp only [res4, res3, res2, res1] at h4
          exact ⟨4, by norm_num, by simp [enable_keepalive, h1, h2, h3, h4]⟩
        · simp only [res4, res3, res2, res1] at h4
          exact ⟨4, by norm_num, by simp [enable_keepalive, h1, h2, h3, h4]⟩

/-- C3: no rollback on a conforming operating system.  When step k is the
first to fail, the final kernel state is the initial state with exactly the
options of steps 1..k-1 overwritten: earlier successful writes are not
reverted, and the options of steps k..4 keep their prior values.  In
particular, when the idle-time step fails after the toggle succeeded, the
state is the initial one with only `keepaliveEnabled` changed. -/
theorem enable_keepalive_noRollback (os : OsModel) (s0 : KernelState)
    (sock e t i m : Int) (hos : Conforming os) :
    ((res1 os s0 sock e).1 = -1 →
      (enable_keepalive os s0 sock e t i m).state = s0) ∧
    ((res1 os s0 sock e).1 ≠ -1 → (res2 os s0 sock e t).1 = -1 →
      (enable_keepalive os s0 sock e t i m).state =
        { s0 with keepaliveEnabled := e }) ∧
    ((res1 os s0 sock e).1 ≠ -1 → (res2 os s0 sock e t).1 ≠ -1 →
      (res3 os s0 sock e t i).1 = -1 →
      (enable_keepalive os s0 sock e t i m).state =
        { s0 with keepaliveEnabled := e, keepIdle := t }) ∧
    ((res1 os s0 sock e).1 ≠ -1 → (res2 os s0 sock e t).1 ≠ -1 →
      (res3 os s0 sock e t i).1 ≠ -1 → (res4 os s0 sock e t i m).1 = -1 →
      (enable_keepalive os s0 sock e t i m).state =
        { s0 with keepaliveEnabled := e, keepIdle := t, keepIntvl := i }) := by
  obtain ⟨k1, k2, k3, k4, _⟩ := run_state_eq os s0 sock e t i m hos
  refine ⟨k1, ?_, ?_, ?_⟩
  · intro h1 h2
    rw [k2 h1 h2, applyOpt_call1]
  · intro h1 h2 h3
    rw [k3 h1 h2 h3, applyOpt_call2, applyOpt_call1]
  · intro h1 h2 h3 h4
    rw [k4 h1 h2 h3 h4, applyOpt_call3, applyOpt_call2, applyOpt_call1]

/-- Witness for C3: on the operating system that rejects exactly the
idle-time request, with a negative idle value requested, the run leaves the
Linux default state with only the keepalive toggle changed. -/
theorem enable_keepalive_noRollback_witness :
    (enable_keepalive failIdleOS initState 3 1 (-60) 10 5).state =
      { initState with keepaliveEnabled := 1 } :=
  (enable_keepalive_noRollback failIdleOS initState 3 1 (-60) 10 5
    failIdleOS_conforming).2.1 (by decide) (by decide)

/-- Helper: on a conforming operating system, when all four calls succeed
the function returns `1` and the kernel state holds exactly the four
requested values. -/
theorem run_allSuccess (os : OsModel) (s0 : KernelState) (sock e t i m : Int)
    (hos : Conforming os)
    (h1 : (res1 os s0 sock e).1 ≠ -1) (h2 : (res2 os s0 sock e t).1 ≠ -1)
    (h3 : (res3 os s0 sock e t i).1 ≠ -1)
    (h4 : (res4 os s0 sock e t i m).1 ≠ -1) :
    (enable_keepalive os s0 sock e t i m).ret = 1 ∧
    (enable_keepalive os s0 sock e t i m).state = ⟨e, t, i, m⟩ := by
  constructor
  · exact (run_ret_iff os s0 sock e t i m).2 ⟨h1, h2, h3, h4⟩
  · obtain ⟨_, _, _, _, k5⟩ := run_state_eq os s0 sock e t i m hos
    rw [k5 h1 h2 h3 h4, applyOpt_call4, applyOpt_call3, applyOpt_call2,
      applyOpt_call1]

/-- C4: under the precondition that all four operating-system calls succeed
on a conforming platform, `enable_keepalive` returns `1` (true) and reading
back the connection's keepalive settings yields exactly the requested
quadruple. -/
theorem enable_keepalive_success_readback (os : OsModel) (s0 : KernelState)
    (sock e t i m : Int) (hos : Conforming os)
    (h1 : (res1 os s0 sock e).1 ≠ -1) (h2 : (res2 os s0 sock e t).1 ≠ -1)
    (h3 : (res3 os s0 sock e t i).1 ≠ -1)
    (h4 : (res4 os s0 sock e t i m).1 ≠ -1) :
    (enable_keepalive os s0 sock e t i m).ret = 1 ∧
    (enable_keepalive os s0 sock e t i m).state = ⟨e, t, i, m⟩ :=
  run_allSuccess os s0 sock e t i m hos h1 h2 h3 h4

/-- Witness for C4: the spec's concrete scenario
`configureKeepalive(validSocket, 1, 60, 10, 5)` on an accepting operating
system returns `1`, and the idle time reads back as `60`. -/
theorem enable_keepalive_success_readback_witness :
    (enable_keepalive goodOS initState 3 1 60 10 5).ret = 1 ∧
    (enable_keepalive goodOS initState 3 1 60 10 5).state = ⟨1, 60, 10, 5⟩ ∧
    (enable_keepalive goodOS initState 3 1 60 10 5).state.keepIdle = 60 := by
  have h := enable_keepalive_success_readback goodOS initState 3 1 60 10 5
    goodOS_conforming (by decide) (by decide) (by decide) (by decide)
  exact ⟨h.1, h.2, by rw [h.2]⟩

/-- C5: on a handle every configuration request against which the operating
system rejects (a closed or invalid handle), `enable_keepalive` returns `0`
(false) whatever the four parameter values are. -/
theorem enable_keepalive_invalidHandle (os : OsModel) (s0 : KernelState)
    (sock e t i m : Int)
    (hbad : ∀ l o v s, (os ⟨sock, l, o, v⟩ s).1 = -1) :
    (enable_keepalive os s0 sock e t i m).ret = 0 := by
  have h1 : (os (call1 sock e) s0).1 = -1 := hbad SOL_SOCKET SO_KEEPALIVE e s0
  simp [enable_keepalive, h1]

/-- Witness for C5: on the operating system where handle `7` is invalid,
the call on handle `7` returns `0`. -/
theorem enable_keepalive_invalidHandle_witness :
    (enable_keepalive (badSockOS 7) initState 7 1 60 10 5).ret = 0 :=
  enable_keepalive_invalidHandle (badSockOS 7) initState 7 1 60 10 5
    (by intro l o v s; simp [badSockOS])

/-- C6: idempotence.  On a conforming operating system that accepts each of
the four requests in every state, running `enable_keepalive` twice with
identical parameters returns `1` both times and the kernel state after the
second run equals the state after the first. -/
theorem enable_keepalive_idempotent (os : OsModel) (s0 : KernelState)
    (sock e t i m : Int) (hos : Conforming os)
    (hacc : ∀ s, (os (call1 sock e) s).1 ≠ -1 ∧ (os (call2 sock t) s).1 ≠ -1 ∧
      (os (call3 sock i) s).1 ≠ -1 ∧ (os (call4 sock m) s).1 ≠ -1) :
    (enable_keepalive os s0 sock e t i m).ret = 1 ∧
    (enable_keepalive os (enable_keepalive os s0 sock e t i m).state
      sock e t i m).ret = 1 ∧
    (enable_keepalive os (enable_keepalive os s0 sock e t i m).state
      sock e t i m).state = (enable_keepalive os s0 sock e t i m).state := by
  have H : ∀ s, (enable_keepalive os s sock e t i m).ret = 1 ∧
      (enable_keepalive os s sock e t i m).state = ⟨e, t, i, m⟩ := by
    intro s
    exact run_allSuccess os s sock e t i m hos (hacc s).1 ((hacc _).2.1)
      ((hacc _).2.2.1) ((hacc _).2.2.2)
  exact ⟨(H s0).1, (H _).1, by rw [(H _).2, (H s0).2]⟩

/-- Witness for C6: two identical runs on the accepting operating system
both return `1` and leave the same state. -/
theorem enable_keepalive_idempotent_witness :
    (enable_keepalive goodOS initState 3 1 60 10 5).ret = 1 ∧
    (enable_keepalive goodOS (enable_keepalive goodOS initState 3 1 60 10 5).state
      3 1 60 10 5).ret = 1 ∧
    (enable_keepalive goodOS (enable_keepalive goodOS initState 3 1 60 10 5).state
      3 1 60 10 5).state = (enable_keepalive goodOS initState 3 1 60 10 5).state :=
  enable_keepalive_idempotent goodOS initState 3 1 60 10 5 goodOS_conforming
    (by intro s; refine ⟨?_, ?_, ?_, ?_⟩ <;> simp [goodOS])

/-- C7: on a conforming operating system, when the first call (which
requests keepalive off, value `0`) succeeds, keepalive is left disabled on
return whatever happens afterwards; the overall call returns `1` exactly
when the platform also accepts the three later options on the
keepalive-disabled socket, and otherwise returns `0` after having
successfully disabled keepalive. -/
theorem enable_keepalive_disable (os : OsModel) (s0 : KernelState)
    (sock t i m : Int) (hos : Conforming os)
    (h1 : (res1 os s0 sock 0).1 ≠ -1) :
    (enable_keepalive os s0 sock 0 t i m).state.keepaliveEnabled = 0 ∧
    ((enable_keepalive os s0 sock 0 t i m).ret = 1 ↔
      (res2 os s0 sock 0 t).1 ≠ -1 ∧ (res3 os s0 sock 0 t i).1 ≠ -1 ∧
      (res4 os s0 sock 0 t i m).1 ≠ -1) := by
  obtain ⟨_, k2, k3, k4, k5⟩ := run_state_eq os s0 sock 0 t i m hos
  constructor
  · by_cases h2 : (res2 os s0 sock 0 t).1 = -1
    · rw [k2 h1 h2, applyOpt_call1]
    · by_cases h3 : (res3 os s0 sock 0 t i).1 = -1
      · rw [k3 h1 h2 h3, applyOpt_call2, applyOpt_call1]
      · by_cases h4 : (res4 os s0 sock 0 t i m).1 = -1
        · rw [k4 h1 h2 h3 h4, applyOpt_call3, applyOpt_call2, applyOpt_call1]
        · rw [k5 h1 h2 h3 h4, applyOpt_call4, applyOpt_call3, applyOpt_call2,
            applyOpt_call1]
  · rw [run_ret_iff os s0 sock 0 t i m]
    simp [h1]

/-- Witness for C7: on the operating system that rejects the idle-time
request, disabling succeeds, the call returns `0`, and keepalive is left
disabled. -/
theorem enable_keepalive_disable_witness :
    (enable_keepalive failIdleOS initState 3 0 60 10 5).state.keepaliveEnabled
        = 0 ∧
    ((enable_keepalive failIdleOS initState 3 0 60 10 5).ret = 1 ↔
      (res2 failIdleOS initState 3 0 60).1 ≠ -1 ∧
      (res3 failIdleOS initState 3 0 60 10).1 ≠ -1 ∧
      (res4 failIdleOS initState 3 0 60 10 5).1 ≠ -1) :=
  enable_keepalive_disable failIdleOS initState 3 60 10 5
    failIdleOS_conforming (by decide)

theorem call1_value (sock v : Int) : (call1 sock v).value = v := rfl

theorem call2_value (sock v : Int) : (call2 sock v).value = v := rfl

theorem call3_value (sock v : Int) : (call3 sock v).value = v := rfl

theorem call4_value (sock v : Int) : (call4 sock v).value = v := rfl

/-- C8: no validation inside the component.  The option values passed to
the operating system are exactly the four parameters, verbatim and in
order (an initial segment of them when a call fails); and whenever the
operating system accepts all four calls the function returns `1`, whatever
the parameter values are — any rejection of an out-of-range value can only
come from the operating-system call itself failing. -/
theorem enable_keepalive_noValidation (os : OsModel) (s0 : KernelState)
    (sock e t i m : Int) :
    (∃ n, n ≤ 4 ∧
      (enable_keepalive os s0 sock e t i m).calls.map (fun p => p.1.value) =
        List.take n [e, t, i, m]) ∧
    (((res1 os s0 sock e).1 ≠ -1 ∧ (res2 os s0 sock e t).1 ≠ -1 ∧
      (res3 os s0 sock e t i).1 ≠ -1 ∧ (res4 os s0 sock e t i m).1 ≠ -1) →
      (enable_keepalive os s0 sock e t i m).ret = 1) := by
  constructor
  · by_cases h1 : (res1 os s0 sock e).1 = -1
    · simp only [res1] at h1
      exact ⟨1, by norm_num, by simp [enable_keepalive, h1, call1_value]⟩
    · simp only [res1] at h1
      by_cases h2 : (res2 os s0 sock e t).1 = -1
      · simp only [res2, res1] at h2
        exact ⟨2, by norm_num,
          by simp [enable_keepalive, h1, h2, call1_value, call2_value]⟩
      · simp only [res2, res1] at h2
        by_cases h3 : (res3 os s0 sock e t i).1 = -1
        · simp only [res3, res2, res1] at h3
          exact ⟨3, by norm_num,
            by simp [enable_keepalive, h1, h2, h3, call1_value, call2_value,
              call3_value]⟩
        · simp only [res3, res2, res1] at h3
          by_cases h4 : (res4 os s0 sock e t i m).1 = -1
          · simp only [res4, res3, res2, res1] at h4
            exact ⟨4, by norm_num,
              by simp [enable_keepalive, h1, h2, h3, h4, call1_value,
                call2_value, call3_value, call4_value]⟩
          · simp only [res4, res3, res2, res1] at h4
            exact ⟨4, by norm_num,
              by simp [enable_keepalive, h1, h2, h3, h4, call1_value,
                call2_value, call3_value, call4_value]⟩
  · intro h
    exact (run_ret_iff os s0 sock e t i m).2 h

/-- Witness for C8: negative idle time, interval and probe count are passed
through unchecked, and on an operating system that accepts them the call
returns `1`. -/
theorem enable_keepalive_noValidation_witness :
    (enable_keepalive goodOS initState 3 1 (-60) (-10) (-5)).ret = 1 :=
  (enable_keepalive_noValidation goodOS initState 3 1 (-60) (-10) (-5)).2
    (by decide)

/-- C9: every invocation issues at most four requests; the number issued is
exactly the index of the first failing step (with return `0`), or four when
step 4 fails or all succeed (with return `0` resp. `1`).  Termination is
inherent: `enable_keepalive` is a total function with no recursion. -/
theorem enable_keepalive_boundedCalls (os : OsModel) (s0 : KernelState)
    (sock e t i m : Int) :
    (enable_keepalive os s0 sock e t i m).calls.length ≤ 4 ∧
    ((res1 os s0 sock e).1 = -1 →
      (enable_keepalive os s0 sock e t i m).calls.length = 1) ∧
    ((res1 os s0 sock e).1 ≠ -1 → (res2 os s0 sock e t).1 = -1 →
      (enable_keepalive os s0 sock e t i m).calls.length = 2) ∧
    ((res1 os s0 sock e).1 ≠ -1 → (res2 os s0 sock e t).1 ≠ -1 →
      (res3 os s0 sock e t i).1 = -1 →
      (enable_keepalive os s0 sock e t i m).calls.length = 3) ∧
    ((res1 os s0 sock e).1 ≠ -1 → (res2 os s0 sock e t).1 ≠ -1 →
      (res3 os s0 sock e t i).1 ≠ -1 → (res4 os s0 sock e t i m).1 = -1 →
      (enable_keepalive os s0 sock e t i m).calls.length = 4 ∧
      (enable_keepalive os s0 sock e t i m).ret = 0) ∧
    ((res1 os s0 sock e).1 ≠ -1 → (res2 os s0 sock e t).1 ≠ -1 →
      (res3 os s0 sock e t i).1 ≠ -1 → (res4 os s0 sock e t i m).1 ≠ -1 →
      (enable_keepalive os s0 sock e t i m).calls.length = 4 ∧
      (enable_keepalive os s0 sock e t i m).ret = 1) := by
  by_cases h1 : (res1 os s0 sock e).1 = -1
  · simp [enable_keepalive, res1, res2, res3, res4] at h1 ⊢
    simp [h1]
  · by_cases h2 : (res2 os s0 sock e t).1 = -1
    · simp [enable_keepalive, res1, res2, res3, res4] at h1 h2 ⊢
      simp [h1, h2]
    · by_cases h3 : (res3 os s0 sock e t i).1 = -1
      · simp [enable_keepalive, res1, res2, res3, res4] at h1 h2 h3 ⊢
        simp [h1, h2, h3]
      · by_cases h4 : (res4 os s0 sock e t i m).1 = -1
        · simp [enable_keepalive, res1, res2, res3, res4] at h1 h2 h3 h4 ⊢
          simp [h1, h2, h3, h4]
        · simp [enable_keepalive, res1, res2, res3, res4] at h1 h2 h3 h4 ⊢
          simp [h1, h2, h3, h4]

/-- Witness for C9: when the second call is the first to fail, exactly two
requests were issued. -/
theorem enable_keepalive_boundedCalls_witness :
    (enable_keepalive failIdleOS initState 4 1 60 10 5).calls.length = 2 :=
  (enable_keepalive_boundedCalls failIdleOS initState 4 1 60 10 5).2.2.1
    (by decide) (by decide)

/-- C10: the return value is always exactly `0` or `1`; it is `1` exactly
when four requests were issued and none returned `-1`; and the sequence
continues past step k exactly when step k's return value differs from `-1`
— any value other than `-1`, not only `0`, counts as success. -/
theorem enable_keepalive_returnValues (os : OsModel) (s0 : KernelState)
    (sock e t i m : Int) :
    ((enable_keepalive os s0 sock e t i m).ret = 0 ∨
      (enable_keepalive os s0 sock e t i m).ret = 1) ∧
    ((enable_keepalive os s0 sock e t i m).ret = 1 ↔
      (enable_keepalive os s0 sock e t i m).calls.length = 4 ∧
      ∀ p ∈ (enable_keepalive os s0 sock e t i m).calls, p.2 ≠ -1) ∧
    (1 < (enable_keepalive os s0 sock e t i m).calls.length ↔
      (res1 os s0 sock e).1 ≠ -1) ∧
    (2 < (enable_keepalive os s0 sock e t i m).calls.length ↔
      (res1 os s0 sock e).1 ≠ -1 ∧ (res2 os s0 sock e t).1 ≠ -1) ∧
    (3 < (enable_keepalive os s0 sock e t i m).calls.length ↔
      (res1 os s0 sock e).1 ≠ -1 ∧ (res2 os s0 sock e t).1 ≠ -1 ∧
      (res3 os s0 sock e t i).1 ≠ -1) := by
  by_cases h1 : (res1 os s0 sock e).1 = -1
  · simp [enable_keepalive, res1, res2, res3, res4] at h1 ⊢
    simp [h1]
  · by_cases h2 : (res2 os s0 sock e t).1 = -1
    · simp [enable_keepalive, res1, res2, res3, res4] at h1 h2 ⊢
      simp [h1, h2]
    · by_cases h3 : (res3 os s0 sock e t i).1 = -1
      · simp [enable_keepalive, res1, res2, res3, res4] at h1 h2 h3 ⊢
        simp [h1, h2, h3]
      · by_cases h4 : (res4 os s0 sock e t i m).1 = -1
        · simp [enable_keepalive, res1, res2, res3, res4] at h1 h2 h3 h4 ⊢
          simp [h1, h2, h3, h4]
          exact ⟨call4 sock m, Or.inr (Or.inr (Or.inr rfl))⟩
        · simp [enable_keepalive, res1, res2, res3, res4] at h1 h2 h3 h4 ⊢
          simp [h1, h2, h3, h4]
          rintro a b (⟨rfl, rfl⟩ | ⟨rfl, rfl⟩ | ⟨rfl, rfl⟩ | ⟨rfl, rfl⟩) <;>
            assumption

/-- Concrete check that a `setsockopt` return value of `7` — neither `0`
nor `-1` — counts as success: the run completes all four steps and returns
`1`. -/
theorem weirdOS_run :
    (enable_keepalive weirdOS initState 3 1 60 10 5).ret = 1 ∧
    (enable_keepalive weirdOS initState 3 1 60 10 5).calls.length = 4 := by
  decide

end KeepAlive
